import Mathlib

/-!
Shallow embedding of `src/app/models.py` (wiki-image-journal): the persisted
record types with their declared field constraints, the transient validation
schemas, and a relational store whose insert operations enforce the declared
uniqueness / foreign-key / field constraints.  The source file declares only
the schema; the storage engine that enforces it is external, so the insert
semantics (check field validity, then uniqueness and foreign keys, report
`ValidationError` / `ConstraintViolation`) is modelled from the spec
(spec.md sections 4.1, 5 and 7), parametrised by the constraints declared in
`src/app/models.py`.
-/

namespace WikiJournal

/-- Timestamps (`datetime`) are opaque at this layer; modelled as `Nat`. -/
abbrev UTCTime := Nat

/-- Calendar dates (`date`) are opaque at this layer; modelled as `Nat`. -/
abbrev CalDate := Nat

/-- `ContactRequestStatus` enum, src/app/models.py lines 7-10. -/
inductive ContactRequestStatus where
  | pending
  | approved
  | declined
deriving DecidableEq, Fintype, Repr

/-- The `str` value of each `ContactRequestStatus` member (its wire value). -/
def ContactRequestStatus.value : ContactRequestStatus → String
  | .pending => "pending"
  | .approved => "approved"
  | .declined => "declined"

/-- `MessageStatus` enum, src/app/models.py lines 13-16. -/
inductive MessageStatus where
  | sent
  | read
  | deleted
deriving DecidableEq, Fintype, Repr

/-- The `str` value of each `MessageStatus` member (its wire value). -/
def MessageStatus.value : MessageStatus → String
  | .sent => "sent"
  | .read => "read"
  | .deleted => "deleted"

/-- `ModerationStatus` enum, src/app/models.py lines 19-23. -/
inductive ModerationStatus where
  | pending
  | approved
  | rejected
  | flagged
deriving DecidableEq, Fintype, Repr

/-- The `str` value of each `ModerationStatus` member (its wire value). -/
def ModerationStatus.value : ModerationStatus → String
  | .pending => "pending"
  | .approved => "approved"
  | .rejected => "rejected"
  | .flagged => "flagged"

/-! ### The email pattern

`User.email` carries `regex=r"^[a-zA-Z0-9_.+-]+@[a-zA-Z0-9-]+\.[a-zA-Z0-9-.]+$"`
(src/app/models.py line 34).  The matcher below recognises exactly the
language of that anchored pattern: since no character class contains `@`,
the local part is everything before the single `@`; since the class
`[a-zA-Z0-9-]` contains no dot, the middle part is everything between the
`@` and the first following dot. -/

/-- Characters matched by `[a-zA-Z0-9_.+-]` (the local part of the email). -/
def isLocalChar (c : Char) : Bool :=
  c.isAlpha || c.isDigit || c = '_' || c = '.' || c = '+' || c = '-'

/-- Characters matched by `[a-zA-Z0-9-]` (the domain label before the dot). -/
def isDomainChar (c : Char) : Bool :=
  c.isAlpha || c.isDigit || c = '-'

/-- Characters matched by `[a-zA-Z0-9-.]` (the part after the first dot). -/
def isTailChar (c : Char) : Bool :=
  isDomainChar c || c = '.'

/-- Matches `[a-zA-Z0-9-]*\.[a-zA-Z0-9-.]+` : domain characters up to the
first dot, then a nonempty tail of `[a-zA-Z0-9-.]` characters. -/
def domainTail : List Char → Bool
  | [] => false
  | c :: cs => if c = '.' then !cs.isEmpty && cs.all isTailChar
               else isDomainChar c && domainTail cs

/-- Matches `[a-zA-Z0-9-]+\.[a-zA-Z0-9-.]+` (the part after the `@`). -/
def domainPart : List Char → Bool
  | [] => false
  | c :: cs => isDomainChar c && domainTail cs

/-- Matches `[a-zA-Z0-9_.+-]*@` followed by the domain part. -/
def localTail : List Char → Bool
  | [] => false
  | c :: cs => if c = '@' then domainPart cs
               else isLocalChar c && localTail cs

/-- Matches the full pattern `^[a-zA-Z0-9_.+-]+@[a-zA-Z0-9-]+\.[a-zA-Z0-9-.]+$`. -/
def emailChars : List Char → Bool
  | [] => false
  | c :: cs => isLocalChar c && localTail cs

/-- `emailMatches s` holds exactly when `s` matches the anchored email regex
declared on `User.email`. -/
def emailMatches (s : String) : Bool :=
  emailChars s.toList

/-! ### Persisted record types

Each structure mirrors one `table=True` model of src/app/models.py.  Field
defaults written with `:=` are exactly the `Field(default=...)` values of the
source; `default_factory=datetime.utcnow` fields ("creation-time, UTC")
become required arguments since "now" is an input at this layer.  Database
ids (`Optional[int]`, primary key, assigned by the store) are `Option Nat`. -/

/-- `User` table, src/app/models.py lines 27-44. -/
structure User where
  id : Option Nat := none
  username : String
  email : String
  password_hash : String
  full_name : String
  is_active : Bool := true
  is_admin : Bool := false
  joined_at : UTCTime
  last_login : Option UTCTime := none
deriving DecidableEq, Repr

/-- Field-level constraints declared on `User`: max lengths and the email
regex (src/app/models.py lines 33-36). -/
def User.valid (u : User) : Prop :=
  u.username.length ≤ 50 ∧ u.email.length ≤ 255 ∧ emailMatches u.email = true ∧
  u.password_hash.length ≤ 255 ∧ u.full_name.length ≤ 100

instance (u : User) : Decidable u.valid := by
  unfold User.valid
  infer_instance

/-- `WikipediaImage` table, src/app/models.py lines 47-63. -/
structure WikipediaImage where
  id : Option Nat := none
  image_date : CalDate
  title : String
  description : String
  image_url : String
  thumbnail_url : Option String := none
  source_url : String
  license_info : String
  fetched_at : UTCTime
deriving DecidableEq, Repr

/-- Field-level constraints declared on `WikipediaImage` (max lengths,
src/app/models.py lines 54-59). -/
def WikipediaImage.valid (w : WikipediaImage) : Prop :=
  w.title.length ≤ 500 ∧ w.description.length ≤ 2000 ∧
  w.image_url.length ≤ 1000 ∧ (w.thumbnail_url.getD "").length ≤ 1000 ∧
  w.source_url.length ≤ 1000 ∧ w.license_info.length ≤ 500

instance (w : WikipediaImage) : Decidable w.valid := by
  unfold WikipediaImage.valid
  infer_instance

/-- `JournalEntry` table, src/app/models.py lines 66-84. -/
structure JournalEntry where
  id : Option Nat := none
  user_id : Nat
  wikipedia_image_id : Nat
  entry_date : CalDate
  title : String
  content : String
  is_shared : Bool := false
  created_at : UTCTime
  updated_at : UTCTime
deriving DecidableEq, Repr

/-- Field-level constraints declared on `JournalEntry` (max lengths,
src/app/models.py lines 75-76). -/
def JournalEntry.valid (e : JournalEntry) : Prop :=
  e.title.length ≤ 200 ∧ e.content.length ≤ 5000

instance (e : JournalEntry) : Decidable e.valid := by
  unfold JournalEntry.valid
  infer_instance

/-- `SharedEntry` table, src/app/models.py lines 87-105. -/
structure SharedEntry where
  id : Option Nat := none
  journal_entry_id : Nat
  moderation_status : ModerationStatus := .pending
  moderated_by : Option Nat := none
  moderated_at : Option UTCTime := none
  moderation_notes : Option String := none
  shared_at : UTCTime
  view_count : Int := 0
  like_count : Int := 0
deriving DecidableEq, Repr

/-- Field-level constraints declared on `SharedEntry` (max length of
`moderation_notes`, src/app/models.py line 97). -/
def SharedEntry.valid (e : SharedEntry) : Prop :=
  (e.moderation_notes.getD "").length ≤ 1000

instance (e : SharedEntry) : Decidable e.valid := by
  unfold SharedEntry.valid
  infer_instance

/-- `EntryLike` table, src/app/models.py lines 108-120.  Note: the source
declares foreign keys and indexes on `user_id` and `shared_entry_id` but no
unique constraint on the pair. -/
structure EntryLike where
  id : Option Nat := none
  user_id : Nat
  shared_entry_id : Nat
  liked_at : UTCTime
deriving DecidableEq, Repr

/-- `Message` table, src/app/models.py lines 142-160. -/
structure Message where
  id : Option Nat := none
  sender_id : Nat
  recipient_id : Nat
  contact_request_id : Nat
  subject : String
  content : String
  status : MessageStatus := .sent
  sent_at : UTCTime
  read_at : Option UTCTime := none
  deleted_by_sender : Bool := false
  deleted_by_recipient : Bool := false
deriving DecidableEq, Repr

/-! ### Transient validation schemas (table=False) -/

/-- `UserCreate` schema, src/app/models.py lines 182-188.  It declares max
lengths only: the email regex lives on the persisted `User`. -/
structure UserCreate where
  username : String
  email : String
  password : String
  full_name : String
deriving DecidableEq, Repr

/-- Constraints declared on `UserCreate` (max lengths). -/
def UserCreate.valid (c : UserCreate) : Prop :=
  c.username.length ≤ 50 ∧ c.email.length ≤ 255 ∧
  c.password.length ≤ 100 ∧ c.full_name.length ≤ 100

instance (c : UserCreate) : Decidable c.valid := by
  unfold UserCreate.valid
  infer_instance

/-- `JournalEntryCreate` schema, src/app/models.py lines 198-203. -/
structure JournalEntryCreate where
  title : String
  content : String
  is_shared : Bool := false
deriving DecidableEq, Repr

/-! ### The relational store

the storage engine enforcing the declared
constraints is absent from src/ (the file declares the schema only; spec.md
section 5 says uniqueness is "enforced by the storage engine" and section 7
names the two error kinds).  Each insert checks field-level validity
(`ValidationError`) and then uniqueness / foreign keys
(`ConstraintViolation`), as described in spec.md sections 4.1 and 7, with the
constraints taken verbatim from src/app/models.py.  The store assigns
sequential primary-key ids. -/

/-- Modelled from the spec: the two error kinds of spec.md section 7. -/
inductive DbError where
  | validationError
  | constraintViolation
deriving DecidableEq, Repr

/-- A database state: one list of rows per modelled table. -/
structure Store where
  users : List User := []
  wikipedia_images : List WikipediaImage := []
  journal_entries : List JournalEntry := []
  shared_entries : List SharedEntry := []
  entry_likes : List EntryLike := []
deriving DecidableEq, Repr

/-- The empty database. -/
def Store.empty : Store := {}

/-- Modelled from the spec: insert into `users` with the storage-engine checks of spec.md sections 4.1 and 7: field constraints (src line 33-36), then the unique
constraints on `username` and `email` (src lines 33-34). -/
def insertUser (s : Store) (u : User) : Except DbError Store :=
  if ¬ u.valid then Except.error DbError.validationError
  else if ∃ v ∈ s.users, v.username = u.username then
    Except.error DbError.constraintViolation
  else if ∃ v ∈ s.users, v.email = u.email then
    Except.error DbError.constraintViolation
  else Except.ok { s with
    users := s.users ++ [{ u with id := some (s.users.length + 1) }] }

/-- Modelled from the spec: insert into `wikipedia_images` with the storage-engine checks of spec.md sections 4.1 and 7: field constraints, then the unique
constraint on `image_date` (src line 53). -/
def insertWikipediaImage (s : Store) (w : WikipediaImage) :
    Except DbError Store :=
  if ¬ w.valid then Except.error DbError.validationError
  else if ∃ v ∈ s.wikipedia_images, v.image_date = w.image_date then
    Except.error DbError.constraintViolation
  else Except.ok { s with
    wikipedia_images := s.wikipedia_images ++
      [{ w with id := some (s.wikipedia_images.length + 1) }] }

/-- Modelled from the spec: insert into `journal_entries` with the storage-engine checks of spec.md sections 4.1 and 7: field constraints, then the foreign keys
`user_id → users.id` and `wikipedia_image_id → wikipedia_images.id`
(src lines 72-73). -/
def insertJournalEntry (s : Store) (e : JournalEntry) : Except DbError Store :=
  if ¬ e.valid then Except.error DbError.validationError
  else if ¬ ∃ v ∈ s.users, v.id = some e.user_id then
    Except.error DbError.constraintViolation
  else if ¬ ∃ w ∈ s.wikipedia_images, w.id = some e.wikipedia_image_id then
    Except.error DbError.constraintViolation
  else Except.ok { s with
    journal_entries := s.journal_entries ++
      [{ e with id := some (s.journal_entries.length + 1) }] }

/-- Modelled from the spec: insert into `shared_entries` with the storage-engine checks of spec.md sections 4.1 and 7: field constraints, the foreign key
`journal_entry_id → journal_entries.id` with its unique constraint
(src line 93), and the optional foreign key `moderated_by → users.id`
(src line 95). -/
def insertSharedEntry (s : Store) (e : SharedEntry) : Except DbError Store :=
  if ¬ e.valid then Except.error DbError.validationError
  else if ¬ ∃ v ∈ s.journal_entries, v.id = some e.journal_entry_id then
    Except.error DbError.constraintViolation
  else if ∃ v ∈ s.shared_entries, v.journal_entry_id = e.journal_entry_id then
    Except.error DbError.constraintViolation
  else if ¬ ∀ m ∈ e.moderated_by, ∃ v ∈ s.users, v.id = some m then
    Except.error DbError.constraintViolation
  else Except.ok { s with
    shared_entries := s.shared_entries ++
      [{ e with id := some (s.shared_entries.length + 1) }] }

/-- Modelled from the spec: insert into `entry_likes` with the storage-engine checks of spec.md sections 4.1 and 7: the foreign keys `user_id → users.id` and
`shared_entry_id → shared_entries.id` (src lines 114-115).  The source
declares no unique constraint on `(user_id, shared_entry_id)`. -/
def insertEntryLike (s : Store) (l : EntryLike) : Except DbError Store :=
  if ¬ ∃ v ∈ s.users, v.id = some l.user_id then
    Except.error DbError.constraintViolation
  else if ¬ ∃ v ∈ s.shared_entries, v.id = some l.shared_entry_id then
    Except.error DbError.constraintViolation
  else Except.ok { s with
    entry_likes := s.entry_likes ++
      [{ l with id := some (s.entry_likes.length + 1) }] }

/-- The stores reachable from the empty database by successful inserts. -/
inductive Reachable : Store → Prop where
  | empty : Reachable Store.empty
  | insUser : ∀ s u t, Reachable s → insertUser s u = Except.ok t → Reachable t
  | insImage : ∀ s w t, Reachable s → insertWikipediaImage s w = Except.ok t →
      Reachable t
  | insEntry : ∀ s e t, Reachable s → insertJournalEntry s e = Except.ok t →
      Reachable t
  | insShared : ∀ s e t, Reachable s → insertSharedEntry s e = Except.ok t →
      Reachable t
  | insLike : ∀ s l t, Reachable s → insertEntryLike s l = Except.ok t →
      Reachable t

/-! ### Schema-to-record construction and updates -/

/-- Modelled from the spec: the service layer mapping a validated
`UserCreate` onto a `User` row is absent from src/ (spec.md section 6: a
password-hashing service supplies `password_hash`, the hash and the creation
time are inputs here).  All other `User` fields take their declared
defaults. -/
def mkUser (c : UserCreate) (ph : String) (t : UTCTime) : User :=
  { username := c.username, email := c.email, password_hash := ph,
    full_name := c.full_name, joined_at := t }

/-- Modelled from the spec: schema validation (spec.md section 4.2:
transient schemas "fail with a `ValidationError` ... when length/type
constraints are violated"), with the max lengths declared on
`JournalEntryCreate` in src/app/models.py lines 201-202. -/
def JournalEntryCreate.validate (c : JournalEntryCreate) :
    Except DbError Unit :=
  if c.title.length ≤ 200 ∧ c.content.length ≤ 5000 then Except.ok ()
  else Except.error DbError.validationError

/-- Modelled from the spec: the service-layer update marking a message read
is absent from src/ (spec.md section 3: `read_at` is "mutated in place by the
(absent) service layer on state transitions"). -/
def Message.markRead (m : Message) (t : UTCTime) : Message :=
  { m with status := .read, read_at := some t }

/-- Modelled from the spec: the sender-side soft delete is absent from
src/; it sets the `deleted_by_sender` flag (src line 156) and nothing else. -/
def Message.setDeletedBySender (m : Message) : Message :=
  { m with deleted_by_sender := true }

/-- Decidable equality for `Except`, used to evaluate insert results on
concrete stores. -/
def exceptDecEq {e a : Type} [DecidableEq e] [DecidableEq a] :
    DecidableEq (Except e a) := fun x y =>
  match x, y with
  | Except.ok v, Except.ok w =>
      if h : v = w then isTrue (by rw [h]) else isFalse (by simp [h])
  | Except.error v, Except.error w =>
      if h : v = w then isTrue (by rw [h]) else isFalse (by simp [h])
  | Except.ok _, Except.error _ => isFalse (by simp)
  | Except.error _, Except.ok _ => isFalse (by simp)

instance {e a : Type} [DecidableEq e] [DecidableEq a] :
    DecidableEq (Except e a) := exceptDecEq

/-! ### A concrete population of the store

A hand-evaluated chain of successful inserts, used to witness the theorems
below on concrete data. -/

/-- A concrete valid user row. -/
def demoUser : User :=
  { username := "alice", email := "a@b.c", password_hash := "h",
    full_name := "Alice", joined_at := 0 }

/-- The store after inserting `demoUser` into the empty store. -/
def demoStore1 : Store := { users := [{ demoUser with id := some 1 }] }

/-- A concrete valid image row. -/
def demoImage : WikipediaImage :=
  { image_date := 1, title := "t", description := "d", image_url := "u",
    source_url := "s", license_info := "l", fetched_at := 0 }

/-- The store after also inserting `demoImage`. -/
def demoStore2 : Store :=
  { demoStore1 with wikipedia_images := [{ demoImage with id := some 1 }] }

/-- A concrete valid journal-entry row referencing `demoUser` and
`demoImage`. -/
def demoEntry : JournalEntry :=
  { user_id := 1, wikipedia_image_id := 1, entry_date := 1, title := "t",
    content := "c", created_at := 0, updated_at := 0 }

/-- The store after also inserting `demoEntry`. -/
def demoStore3 : Store :=
  { demoStore2 with journal_entries := [{ demoEntry with id := some 1 }] }

/-- A concrete shared-entry row wrapping `demoEntry`, with every defaulted
field left at its default. -/
def demoShared : SharedEntry := { journal_entry_id := 1, shared_at := 0 }

/-- The store after also inserting `demoShared`. -/
def demoStore4 : Store :=
  { demoStore3 with shared_entries := [{ demoShared with id := some 1 }] }

/-- A like by `demoUser` on `demoShared`. -/
def demoLike : EntryLike :=
  { user_id := 1, shared_entry_id := 1, liked_at := 0 }

/-- The store after also inserting `demoLike`. -/
def demoStore5 : Store :=
  { demoStore4 with entry_likes := [{ demoLike with id := some 1 }] }

/-- A concrete message from user 1 to user 2, built with the declared
defaults (`status = sent`, deletion flags false, `read_at = none`). -/
def demoMessage : Message :=
  { sender_id := 1, recipient_id := 2, contact_request_id := 1,
    subject := "s", content := "c", sent_at := 0 }

/-- The store after inserting a second, identical like. -/
def demoStore6 : Store :=
  { demoStore4 with
    entry_likes := [{ demoLike with id := some 1 },
                    { demoLike with id := some 2 }] }

/-! ### Inversion lemmas for successful inserts -/

/-- A successful `insertUser` passed every check and appended the row. -/
theorem insertUser_ok {s : Store} {u : User} {t : Store}
    (h : insertUser s u = Except.ok t) :
    u.valid ∧ (¬ ∃ v ∈ s.users, v.username = u.username) ∧
    (¬ ∃ v ∈ s.users, v.email = u.email) ∧
    t = { s with users := s.users ++
      [{ u with id := some (s.users.length + 1) }] } := by
  unfold insertUser at h
  split at h
  next h1 => cases h
  next h1 =>
    split at h
    next h2 => cases h
    next h2 =>
      split at h
      next h3 => cases h
      next h3 =>
        cases h
        exact ⟨not_not.mp h1, h2, h3, rfl⟩

/-- A successful `insertWikipediaImage` passed every check and appended the
row. -/
theorem insertWikipediaImage_ok {s : Store} {w : WikipediaImage} {t : Store}
    (h : insertWikipediaImage s w = Except.ok t) :
    w.valid ∧ (¬ ∃ v ∈ s.wikipedia_images, v.image_date = w.image_date) ∧
    t = { s with wikipedia_images := s.wikipedia_images ++
      [{ w with id := some (s.wikipedia_images.length + 1) }] } := by
  unfold insertWikipediaImage at h
  split at h
  next h1 => cases h
  next h1 =>
    split at h
    next h2 => cases h
    next h2 =>
      cases h
      exact ⟨not_not.mp h1, h2, rfl⟩

/-- A successful `insertJournalEntry` passed every check and appended the
row. -/
theorem insertJournalEntry_ok {s : Store} {e : JournalEntry} {t : Store}
    (h : insertJournalEntry s e = Except.ok t) :
    e.valid ∧
    t = { s with journal_entries := s.journal_entries ++
      [{ e with id := some (s.journal_entries.length + 1) }] } := by
  unfold insertJournalEntry at h
  split at h
  next h1 => cases h
  next h1 =>
    split at h
    next h2 => cases h
    next h2 =>
      split at h
      next h3 => cases h
      next h3 =>
        cases h
        exact ⟨not_not.mp h1, rfl⟩

/-- A successful `insertSharedEntry` passed every check and appended the
row. -/
theorem insertSharedEntry_ok {s : Store} {e : SharedEntry} {t : Store}
    (h : insertSharedEntry s e = Except.ok t) :
    e.valid ∧
    (¬ ∃ v ∈ s.shared_entries, v.journal_entry_id = e.journal_entry_id) ∧
    t = { s with shared_entries := s.shared_entries ++
      [{ e with id := some (s.shared_entries.length + 1) }] } := by
  unfold insertSharedEntry at h
  split at h
  next h1 => cases h
  next h1 =>
    split at h
    next h2 => cases h
    next h2 =>
      split at h
      next h3 => cases h
      next h3 =>
        split at h
        next h4 => cases h
        next h4 =>
          cases h
          exact ⟨not_not.mp h1, h3, rfl⟩

/-- A successful `insertEntryLike` appended the row. -/
theorem insertEntryLike_ok {s : Store} {l : EntryLike} {t : Store}
    (h : insertEntryLike s l = Except.ok t) :
    t = { s with entry_likes := s.entry_likes ++
      [{ l with id := some (s.entry_likes.length + 1) }] } := by
  unfold insertEntryLike at h
  split at h
  next h1 => cases h
  next h1 =>
    split at h
    next h2 => cases h
    next h2 =>
      cases h
      exact rfl

/-! ### Reachability of the concrete population -/

/-- `demoStore1` is reached by inserting `demoUser`. -/
theorem reachable_demoStore1 : Reachable demoStore1 :=
  Reachable.insUser Store.empty demoUser demoStore1 Reachable.empty
    (by decide)

/-- `demoStore2` is reached by also inserting `demoImage`. -/
theorem reachable_demoStore2 : Reachable demoStore2 :=
  Reachable.insImage demoStore1 demoImage demoStore2 reachable_demoStore1
    (by decide)

/-- `demoStore3` is reached by also inserting `demoEntry`. -/
theorem reachable_demoStore3 : Reachable demoStore3 :=
  Reachable.insEntry demoStore2 demoEntry demoStore3 reachable_demoStore2
    (by decide)

/-- `demoStore4` is reached by also inserting `demoShared`. -/
theorem reachable_demoStore4 : Reachable demoStore4 :=
  Reachable.insShared demoStore3 demoShared demoStore4 reachable_demoStore3
    (by decide)

/-- `demoStore5` is reached by also inserting `demoLike`. -/
theorem reachable_demoStore5 : Reachable demoStore5 :=
  Reachable.insLike demoStore4 demoLike demoStore5 reachable_demoStore4
    (by decide)

/-! ### The claims -/

/-- C1: persisting a second `User` with an already-stored username fails with
`ConstraintViolation`, and no reachable store contains two users sharing a
username or an email. -/
theorem user_username_email_unique :
    (∀ (s : Store) (u : User), u.valid →
      (∃ v ∈ s.users, v.username = u.username) →
      insertUser s u = Except.error DbError.constraintViolation) ∧
    (∀ s : Store, Reachable s →
      s.users.Pairwise
        (fun a b => a.username ≠ b.username ∧ a.email ≠ b.email)) := by
  constructor
  · intro s u hv hex
    unfold insertUser
    rw [if_neg (not_not_intro hv), if_pos hex]
  · intro s hr
    induction hr with
    | empty => simp [Store.empty]
    | insUser s u t hs heq ih =>
      obtain ⟨hv, h2, h3, rfl⟩ := insertUser_ok heq
      refine List.pairwise_append.mpr ⟨ih, List.pairwise_singleton _ _, ?_⟩
      intro a ha b hb
      rw [List.mem_singleton] at hb
      subst hb
      constructor
      · intro hcon; exact h2 ⟨a, ha, hcon⟩
      · intro hcon; exact h3 ⟨a, ha, hcon⟩
    | insImage s w t hs heq ih =>
      obtain ⟨-, -, rfl⟩ := insertWikipediaImage_ok heq
      exact ih
    | insEntry s e t hs heq ih =>
      obtain ⟨-, rfl⟩ := insertJournalEntry_ok heq
      exact ih
    | insShared s e t hs heq ih =>
      obtain ⟨-, -, rfl⟩ := insertSharedEntry_ok heq
      exact ih
    | insLike s l t hs heq ih =>
      obtain rfl := insertEntryLike_ok heq
      exact ih

/-- C1 witness: in the concrete store holding `demoUser`, inserting a second
user named "alice" fails with `ConstraintViolation`, and the store's users
are pairwise distinct in username and email. -/
theorem user_username_email_unique_witness :
    insertUser demoStore1
      { username := "alice", email := "x@y.z", password_hash := "h",
        full_name := "A", joined_at := 0 } =
      Except.error DbError.constraintViolation ∧
    demoStore1.users.Pairwise
      (fun a b => a.username ≠ b.username ∧ a.email ≠ b.email) :=
  ⟨user_username_email_unique.1 demoStore1 _ (by decide) (by decide),
   user_username_email_unique.2 demoStore1 reachable_demoStore1⟩

/-- C3: persisting a second `SharedEntry` referencing an already-shared
`journal_entry_id` fails with `ConstraintViolation`, and every reachable
store has pairwise-distinct `journal_entry_id`s in `shared_entries`, hence at
most one `SharedEntry` per `JournalEntry`. -/
theorem shared_entry_journal_unique :
    (∀ (s : Store) (e : SharedEntry), e.valid →
      (∃ v ∈ s.shared_entries, v.journal_entry_id = e.journal_entry_id) →
      insertSharedEntry s e = Except.error DbError.constraintViolation) ∧
    (∀ s : Store, Reachable s →
      s.shared_entries.Pairwise
        (fun a b => a.journal_entry_id ≠ b.journal_entry_id)) := by
  constructor
  · intro s e hv hex
    unfold insertSharedEntry
    rw [if_neg (not_not_intro hv)]
    by_cases hfk : ∃ v ∈ s.journal_entries, v.id = some e.journal_entry_id
    · rw [if_neg (not_not_intro hfk), if_pos hex]
    · rw [if_pos hfk]
  · intro s hr
    induction hr with
    | empty => simp [Store.empty]
    | insUser s u t hs heq ih =>
      obtain ⟨-, -, -, rfl⟩ := insertUser_ok heq
      exact ih
    | insImage s w t hs heq ih =>
      obtain ⟨-, -, rfl⟩ := insertWikipediaImage_ok heq
      exact ih
    | insEntry s e t hs heq ih =>
      obtain ⟨-, rfl⟩ := insertJournalEntry_ok heq
      exact ih
    | insShared s e t hs heq ih =>
      obtain ⟨hv, h3, rfl⟩ := insertSharedEntry_ok heq
      refine List.pairwise_append.mpr ⟨ih, List.pairwise_singleton _ _, ?_⟩
      intro a ha b hb
      rw [List.mem_singleton] at hb
      subst hb
      intro hcon
      exact h3 ⟨a, ha, hcon⟩
    | insLike s l t hs heq ih =>
      obtain rfl := insertEntryLike_ok heq
      exact ih

/-- C3 witness: in the concrete store where journal entry 1 is already
shared, sharing it again fails with `ConstraintViolation`, and the store's
shared entries reference pairwise-distinct journal entries. -/
theorem shared_entry_journal_unique_witness :
    insertSharedEntry demoStore4 { journal_entry_id := 1, shared_at := 5 } =
      Except.error DbError.constraintViolation ∧
    demoStore4.shared_entries.Pairwise
      (fun a b => a.journal_entry_id ≠ b.journal_entry_id) :=
  ⟨shared_entry_journal_unique.1 demoStore4 _ (by decide) (by decide),
   shared_entry_journal_unique.2 demoStore4 reachable_demoStore4⟩

/-- C2: a valid `UserCreate` (schema-valid, hash within bounds, email
matching the declared regex) maps to a `User` whose persistence into the
empty store succeeds, and the stored email is the input email, which matches
the pattern; a `User` whose email does not match the pattern is rejected with
`ValidationError` in every store. -/
theorem user_create_email_validation :
    (∀ (c : UserCreate) (p : String) (t : UTCTime), c.valid →
      p.length ≤ 255 → emailMatches c.email = true →
      ∃ s : Store, insertUser Store.empty (mkUser c p t) = Except.ok s ∧
        ∃ u ∈ s.users, u.email = c.email ∧ emailMatches u.email = true) ∧
    (∀ (s : Store) (u : User), emailMatches u.email = false →
      insertUser s u = Except.error DbError.validationError) := by
  constructor
  · intro c p t hc hp he
    obtain ⟨h1, h2, _, h4⟩ := hc
    have hv : (mkUser c p t).valid := ⟨h1, h2, he, hp, h4⟩
    refine ⟨{ users := [{ mkUser c p t with id := some 1 }] }, ?_, ?_⟩
    · unfold insertUser
      rw [if_neg (not_not_intro hv), if_neg (by simp [Store.empty]),
          if_neg (by simp [Store.empty])]
      rfl
    · exact ⟨{ mkUser c p t with id := some 1 }, by simp, rfl, he⟩
  · intro s u he
    have hnv : ¬ u.valid := by
      intro hv
      have := hv.2.2.1
      rw [he] at this
      cases this
    unfold insertUser
    rw [if_pos hnv]

/-- C2 witness: a concrete valid registration persists into the empty store
with its email stored and matching; a concrete user with non-matching email
"nomatch" is rejected with `ValidationError`. -/
theorem user_create_email_validation_witness :
    (∃ s : Store,
      insertUser Store.empty
        (mkUser { username := "bob", email := "b@c.d", password := "pw",
                  full_name := "Bob" } "hh" 0) = Except.ok s ∧
      ∃ u ∈ s.users, u.email = "b@c.d" ∧ emailMatches u.email = true) ∧
    insertUser Store.empty
      { username := "bob", email := "nomatch", password_hash := "hh",
        full_name := "Bob", joined_at := 0 } =
      Except.error DbError.validationError :=
  ⟨user_create_email_validation.1 _ "hh" 0 (by decide) (by decide)
    (by decide),
   user_create_email_validation.2 Store.empty _ (by decide)⟩

/-- C4: a `JournalEntryCreate` whose content exceeds 5000 characters fails
validation with `ValidationError`; one with title at most 200 characters and
content at most 5000 characters validates successfully. -/
theorem journal_entry_create_limits :
    (∀ c : JournalEntryCreate, 5000 < c.content.length →
      c.validate = Except.error DbError.validationError) ∧
    (∀ c : JournalEntryCreate, c.title.length ≤ 200 →
      c.content.length ≤ 5000 → c.validate = Except.ok ()) := by
  constructor
  · intro c hlong
    unfold JournalEntryCreate.validate
    rw [if_neg]
    intro hok
    exact absurd hok.2 (not_le.mpr hlong)
  · intro c h1 h2
    unfold JournalEntryCreate.validate
    rw [if_pos ⟨h1, h2⟩]

/-- C4 witness: a 5001-character content fails with `ValidationError`; a
short title and content validate successfully. -/
theorem journal_entry_create_limits_witness :
    ({ title := "t", content := String.mk (List.replicate 5001 'a') } :
        JournalEntryCreate).validate =
      Except.error DbError.validationError ∧
    ({ title := "t", content := "c" } : JournalEntryCreate).validate =
      Except.ok () :=
  ⟨journal_entry_create_limits.1 _ (by
    rw [show (String.mk (List.replicate 5001 'a')).length =
          (List.replicate 5001 'a').length from rfl, List.length_replicate]
    norm_num),
   journal_entry_create_limits.2 _ (by decide) (by decide)⟩

/-- C5: each status enum has exactly the listed members, and the wire value
of every member is the exact lowercase string of the source. -/
theorem enum_wire_values :
    (ContactRequestStatus.pending.value = "pending" ∧
     ContactRequestStatus.approved.value = "approved" ∧
     ContactRequestStatus.declined.value = "declined") ∧
    (MessageStatus.sent.value = "sent" ∧
     MessageStatus.read.value = "read" ∧
     MessageStatus.deleted.value = "deleted") ∧
    (ModerationStatus.pending.value = "pending" ∧
     ModerationStatus.approved.value = "approved" ∧
     ModerationStatus.rejected.value = "rejected" ∧
     ModerationStatus.flagged.value = "flagged") ∧
    (∀ x : ContactRequestStatus,
      x = ContactRequestStatus.pending ∨ x = ContactRequestStatus.approved ∨
      x = ContactRequestStatus.declined) ∧
    (∀ x : MessageStatus,
      x = MessageStatus.sent ∨ x = MessageStatus.read ∨
      x = MessageStatus.deleted) ∧
    (∀ x : ModerationStatus,
      x = ModerationStatus.pending ∨ x = ModerationStatus.approved ∨
      x = ModerationStatus.rejected ∨ x = ModerationStatus.flagged) := by
  refine ⟨⟨rfl, rfl, rfl⟩, ⟨rfl, rfl, rfl⟩, ⟨rfl, rfl, rfl, rfl⟩,
    ?_, ?_, ?_⟩ <;> intro x <;> cases x <;> simp

/-- C6: a message persisted as sent (deletion flags at their defaults), then
marked read with `read_at` set, then soft-deleted by the sender, still has
`deleted_by_recipient = false` and status `read`; and the sender-side soft
delete changes no field of a `Message` other than `deleted_by_sender`. -/
theorem message_soft_delete_independent :
    (∀ (m : Message) (t : UTCTime), m.status = MessageStatus.sent →
      m.deleted_by_recipient = false →
      (m.markRead t).read_at = some t ∧
      (m.markRead t).status = MessageStatus.read ∧
      ((m.markRead t).setDeletedBySender).deleted_by_sender = true ∧
      ((m.markRead t).setDeletedBySender).deleted_by_recipient = false ∧
      ((m.markRead t).setDeletedBySender).status = MessageStatus.read) ∧
    (∀ m : Message,
      (m.setDeletedBySender).id = m.id ∧
      (m.setDeletedBySender).sender_id = m.sender_id ∧
      (m.setDeletedBySender).recipient_id = m.recipient_id ∧
      (m.setDeletedBySender).contact_request_id = m.contact_request_id ∧
      (m.setDeletedBySender).subject = m.subject ∧
      (m.setDeletedBySender).content = m.content ∧
      (m.setDeletedBySender).status = m.status ∧
      (m.setDeletedBySender).sent_at = m.sent_at ∧
      (m.setDeletedBySender).read_at = m.read_at ∧
      (m.setDeletedBySender).deleted_by_recipient = m.deleted_by_recipient ∧
      (m.setDeletedBySender).deleted_by_sender = true) := by
  constructor
  · intro m t hst hdr
    exact ⟨rfl, rfl, rfl, hdr, rfl⟩
  · intro m
    exact ⟨rfl, rfl, rfl, rfl, rfl, rfl, rfl, rfl, rfl, rfl, rfl⟩

/-- C6 witness: the round trip evaluated on a concrete message freshly built
with the declared defaults. -/
theorem message_soft_delete_independent_witness :
    (((demoMessage.markRead 7).setDeletedBySender).deleted_by_recipient
        = false) ∧
    (((demoMessage.markRead 7).setDeletedBySender).status
        = MessageStatus.read) :=
  ⟨(message_soft_delete_independent.1 demoMessage 7 rfl rfl).2.2.2.1,
   (message_soft_delete_independent.1 demoMessage 7 rfl rfl).2.2.2.2⟩

/-- C7: a `SharedEntry` built without an explicit `moderation_status` has
status `pending`, and a row freshly inserted by `insertSharedEntry` keeps the
`moderation_status` of the record it was built from. -/
theorem shared_entry_default_pending :
    (∀ (j : Nat) (t : UTCTime),
      ({ journal_entry_id := j, shared_at := t } :
        SharedEntry).moderation_status = ModerationStatus.pending) ∧
    (∀ (s : Store) (j : Nat) (ti : UTCTime) (t : Store),
      insertSharedEntry s { journal_entry_id := j, shared_at := ti } =
        Except.ok t →
      ∀ r ∈ t.shared_entries, r ∉ s.shared_entries →
        r.moderation_status = ModerationStatus.pending) := by
  constructor
  · intro j t
    rfl
  · intro s j ti t heq r hr hnew
    obtain ⟨-, -, rfl⟩ := insertSharedEntry_ok heq
    rcases List.mem_append.mp hr with hold | hsing
    · exact absurd hold hnew
    · rw [List.mem_singleton] at hsing
      subst hsing
      rfl

/-- C7 witness: the insert of `demoShared` (built without an explicit
status) into the concrete store yields a stored row with status pending. -/
theorem shared_entry_default_pending_witness :
    ({ demoShared with id := some 1 } :
      SharedEntry).moderation_status = ModerationStatus.pending :=
  shared_entry_default_pending.2 demoStore3 1 0 demoStore4 (by decide)
    { demoShared with id := some 1 } (by decide) (by decide)

/-- C8: there is a reachable store already holding a like by user 1 on
shared entry 1 in which inserting a second like by the same user on the same
shared entry succeeds (no `ConstraintViolation`), yielding a reachable store
with two distinct `EntryLike` rows sharing `(user_id, shared_entry_id)`:
the source declares no unique constraint on that pair. -/
theorem entry_like_duplicates_allowed :
    ∃ s t : Store, Reachable s ∧
      (∃ a ∈ s.entry_likes, a.user_id = 1 ∧ a.shared_entry_id = 1) ∧
      insertEntryLike s
        { user_id := 1, shared_entry_id := 1, liked_at := 0 } =
        Except.ok t ∧
      Reachable t ∧
      ∃ a ∈ t.entry_likes, ∃ b ∈ t.entry_likes, a ≠ b ∧
        a.user_id = b.user_id ∧ a.shared_entry_id = b.shared_entry_id := by
  refine ⟨demoStore5, demoStore6, reachable_demoStore5, ?_, ?_, ?_, ?_⟩
  · exact ⟨{ demoLike with id := some 1 }, by decide, by decide⟩
  · decide
  · exact Reachable.insLike demoStore5
      { user_id := 1, shared_entry_id := 1, liked_at := 0 } demoStore6
      reachable_demoStore5 (by decide)
  · refine ⟨{ demoLike with id := some 1 }, by decide,
      { demoLike with id := some 2 }, by decide, by decide⟩

/-- C9: a `User` built without explicit flags is active and not an admin. -/
theorem user_default_flags :
    ∀ (a b c d : String) (t : UTCTime),
      ({ username := a, email := b, password_hash := c, full_name := d,
         joined_at := t } : User).is_active = true ∧
      ({ username := a, email := b, password_hash := c, full_name := d,
         joined_at := t } : User).is_admin = false := by
  intro a b c d t
  exact ⟨rfl, rfl⟩

/-- C10: a `JournalEntry` built without an explicit `is_shared` is private,
and a `JournalEntryCreate` omitting `is_shared` defaults it to false. -/
theorem journal_entry_private_by_default :
    (∀ (ui wi : Nat) (d : CalDate) (ti co : String) (c u : UTCTime),
      ({ user_id := ui, wikipedia_image_id := wi, entry_date := d,
         title := ti, content := co, created_at := c, updated_at := u } :
        JournalEntry).is_shared = false) ∧
    (∀ ti co : String,
      ({ title := ti, content := co } :
        JournalEntryCreate).is_shared = false) := by
  constructor
  · intro ui wi d ti co c u
    rfl
  · intro ti co
    rfl

end WikiJournal
